import Mathlib

/-!
Verification of the CRI remote image service client
(`pkg/kubelet/cri/remote/remote_image.go`).

The Go file is a thin gRPC adapter: a `remoteImageService` struct holding a
timeout and an `ImageServiceClient`, five exported operations (`ListImages`,
`ImageStatus`, `PullImage`, `RemoveImage`, `ImageFsInfo`), and the
connect-and-validate constructor `NewRemoteImageService` with its
`validateServiceConnection` handshake probe.

Embedding conventions:
- Go multi-returns `(value, error)` are modelled as `value × Option GoErr`,
  keeping the zero value that accompanies an error (nil slices and nil
  pointers become `none`, the empty string stays `""`).
- The backend interface `runtimeapi.ImageServiceClient` becomes a structure
  of functions `Request → Except GoErr Response`; gRPC guarantees exactly one
  of response and error is set, which `Except` captures.
- Go errors are modelled as `GoErr`, a message string plus the gRPC status
  code that `status.Code` would report for the error (`Unknown` for plain
  errors created with `errors.New`).
- `context.Context` scoping and the `defer cancel()` discipline are runtime
  behaviour; they are reflected as an explicit `CallEvent` trace emitted by
  each operation: scope creation (recording the timeout bound, if any), the
  RPC issued inside that scope, and scope release on exit.
- Each operation also returns the receiver state after the call; the Go
  methods contain no assignment to receiver fields, so they return the
  receiver unchanged, while `validateServiceConnection` (which assigns
  `r.imageClient`) returns the updated receiver.
- `time.Duration` is an `Int` (int64 nanoseconds); no arithmetic is done on
  it. `uint64` sizes are `Nat`; they are only compared with zero, so wrap-
  around never matters.
-/

namespace CriRemote

/-- gRPC status codes used by the file (`google.golang.org/grpc/codes`).
Only `Unimplemented` (12) is inspected; `Unknown` (2) is the code
`status.Code` reports for plain non-status errors such as those made by
`errors.New`. -/
def codeUnimplemented : Nat := 12

/-- gRPC status code `Unknown`, reported for non-status errors. -/
def codeUnknown : Nat := 2

/-- Model of a Go `error` value: its message (`Error()`) together with the
gRPC status code that `status.Code` reports for it. -/
structure GoErr where
  msg : String
  code : Nat
  deriving DecidableEq, Repr

/-- Model of `status.Code(err)` from `google.golang.org/grpc/status`: the
gRPC status code carried by the error. -/
def statusCode (e : GoErr) : Nat := e.code

/-- Model of `errors.New(msg)`: a plain error, whose status code is
`Unknown`. -/
def errorsNew (msg : String) : GoErr := { msg := msg, code := codeUnknown }

/-- CRI wire message `runtimeapi.ImageSpec`: the caller-supplied image
reference. The adapter only reads the `Image` field (for request building
and log/error messages); the remaining fields ride along opaquely. -/
structure ImageSpec where
  image : String
  annotations : List (String × String)
  userSpecifiedImage : String
  runtimeHandler : String
  deriving DecidableEq, Repr

/-- CRI wire message `runtimeapi.Image`: backend-reported image metadata.
The adapter reads `Id` and `Size_`; the rest is passed through opaquely. -/
structure Image where
  id : String
  repoTags : List String
  repoDigests : List String
  size : Nat
  username : String
  pinned : Bool
  deriving DecidableEq, Repr

/-- CRI wire message `runtimeapi.ImageFilter` (a nil-able pointer to it is
modelled as `Option ImageFilter` at use sites). -/
structure ImageFilter where
  image : Option ImageSpec
  deriving DecidableEq, Repr

/-- CRI wire message `runtimeapi.AuthConfig`: registry credentials, passed
through opaquely to the backend. -/
structure AuthConfig where
  username : String
  password : String
  auth : String
  serverAddress : String
  identityToken : String
  registryToken : String
  deriving DecidableEq, Repr

/-- CRI wire message `runtimeapi.PodSandboxConfig`: sandbox context passed
through opaquely to the backend; the adapter never inspects it, so only an
opaque payload is modelled. -/
structure PodSandboxConfig where
  metadataName : String
  metadataNamespace : String
  deriving DecidableEq, Repr

/-- CRI wire message `runtimeapi.FilesystemUsage`: per-filesystem usage
snapshot, passed through opaquely. -/
structure FilesystemUsage where
  timestamp : Int
  fsId : String
  usedBytes : Option Nat
  inodesUsed : Option Nat
  deriving DecidableEq, Repr

/-- Request message of `ImageServiceClient.ListImages`. -/
structure ListImagesRequest where
  filter : Option ImageFilter
  deriving DecidableEq, Repr

/-- Response message of `ImageServiceClient.ListImages`; `Images []*Image`
is a nil-able slice, hence `Option (List Image)`. -/
structure ListImagesResponse where
  images : Option (List Image)
  deriving DecidableEq, Repr

/-- Request message of `ImageServiceClient.ImageStatus`. -/
structure ImageStatusRequest where
  image : ImageSpec
  verbose : Bool
  deriving DecidableEq, Repr

/-- Response message of `ImageServiceClient.ImageStatus`; `Image *Image` is
a nil-able pointer, hence `Option Image`. -/
structure ImageStatusResponse where
  image : Option Image
  info : List (String × String)
  deriving DecidableEq, Repr

/-- Request message of `ImageServiceClient.PullImage`. -/
structure PullImageRequest where
  image : ImageSpec
  auth : Option AuthConfig
  sandboxConfig : Option PodSandboxConfig
  deriving DecidableEq, Repr

/-- Response message of `ImageServiceClient.PullImage`. -/
structure PullImageResponse where
  imageRef : String
  deriving DecidableEq, Repr

/-- Request message of `ImageServiceClient.RemoveImage`. -/
structure RemoveImageRequest where
  image : ImageSpec
  deriving DecidableEq, Repr

/-- Response message of `ImageServiceClient.RemoveImage` (empty message). -/
structure RemoveImageResponse where
  deriving DecidableEq, Repr

/-- Request message of `ImageServiceClient.ImageFsInfo` (empty message). -/
structure ImageFsInfoRequest where
  deriving DecidableEq, Repr

/-- Response message of `ImageServiceClient.ImageFsInfo`;
`ImageFilesystems []*FilesystemUsage` is a nil-able slice. -/
structure ImageFsInfoResponse where
  imageFilesystems : Option (List FilesystemUsage)
  deriving DecidableEq, Repr

/-- Model of the gRPC stub `runtimeapi.ImageServiceClient`: one function per
remote operation. A gRPC unary call returns exactly one of a non-nil
response or an error, captured by `Except`. The model abstracts from the
`context.Context` argument (cancellation is runtime behaviour; the scope a
call runs in is recorded in the operation traces instead). -/
structure ImageServiceClient where
  listImages : ListImagesRequest → Except GoErr ListImagesResponse
  imageStatus : ImageStatusRequest → Except GoErr ImageStatusResponse
  pullImage : PullImageRequest → Except GoErr PullImageResponse
  removeImage : RemoveImageRequest → Except GoErr RemoveImageResponse
  imageFsInfo : ImageFsInfoRequest → Except GoErr ImageFsInfoResponse

/-- The `remoteImageService` struct: the Client Handle, holding the default
per-call timeout and the gRPC image client. -/
structure remoteImageService where
  timeout : Int
  imageClient : ImageServiceClient

/-- Model of a `context.Context` as far as this file observes it: the
timeout bound applied to the scope, if any. -/
structure Ctx where
  timeout : Option Int
  deriving DecidableEq, Repr

/-- Modelled from the spec: `getContextWithTimeout` lives in this repository
outside the provided source (`pkg/kubelet/cri/remote/utils.go`); per the
spec, it produces a cancellation scope derived from the given timeout. -/
def getContextWithTimeout (timeout : Int) : Ctx := { timeout := some timeout }

/-- Modelled from the spec: `getContextWithCancel` lives in this repository
outside the provided source; per the spec, it produces an
unbounded-but-cancellable scope with no timeout applied. -/
def getContextWithCancel : Ctx := { timeout := none }

/-- Observable scoping/RPC events of one operation invocation: scope
creation (with its timeout bound), each RPC issued (with the timeout bound
of the scope it runs in), and scope release (the deferred `cancel()`). -/
inductive CallEvent where
  | scopeCreated (timeout : Option Int)
  | rpcIssued (op : String) (ctxTimeout : Option Int)
  | scopeReleased
  deriving DecidableEq, Repr

/-- Number of RPCs issued in a trace. -/
def rpcCount (evs : List CallEvent) : Nat :=
  (evs.filter fun e => match e with
    | CallEvent.rpcIssued _ _ => true
    | _ => false).length

/-- Model of Go `fmt` quoting `%q` for the identifiers appearing in this
file's error messages (plain double-quoting; CRI image references contain no
characters `%q` would escape). -/
def goQuote (s : String) : String := "\"" ++ s ++ "\""

/-!
Each operation returns the receiver state after the call, the Go
multi-return value, and the trace of scope/RPC events of the invocation.
-/

/-- Go function `listImagesV1`: issue the ListImages RPC with the filter; on error
return `(nil, err)`, on success return `(resp.Images, nil)`. -/
def listImagesV1 (r : remoteImageService) (ctx : Ctx) (filter : Option ImageFilter) :
    remoteImageService × (Option (List Image) × Option GoErr) × List CallEvent :=
  match r.imageClient.listImages { filter := filter } with
  | .error err => (r, (none, some err), [CallEvent.rpcIssued "ListImages" ctx.timeout])
  | .ok resp => (r, (resp.images, none), [CallEvent.rpcIssued "ListImages" ctx.timeout])

/-- Go method `ListImages`: run `listImagesV1` inside a scope bounded by the stored
timeout; the deferred `cancel()` releases the scope on every exit path. -/
def ListImages (r : remoteImageService) (filter : Option ImageFilter) :
    remoteImageService × (Option (List Image) × Option GoErr) × List CallEvent :=
  let ctx := getContextWithTimeout r.timeout
  let out := listImagesV1 r ctx filter
  (out.1, out.2.1, (CallEvent.scopeCreated ctx.timeout :: out.2.2) ++ [CallEvent.scopeReleased])

/-- Go function `imageStatusV1`: issue the ImageStatus RPC; on backend error return
`(nil, err)`; on success, if a record is present but its `Id` is empty or
its `Size_` is zero, synthesize a local error and return `(nil, err)`;
otherwise return `(resp, nil)`. -/
def imageStatusV1 (r : remoteImageService) (ctx : Ctx) (image : ImageSpec) (verbose : Bool) :
    remoteImageService × (Option ImageStatusResponse × Option GoErr) × List CallEvent :=
  let ev := CallEvent.rpcIssued "ImageStatus" ctx.timeout
  match r.imageClient.imageStatus { image := image, verbose := verbose } with
  | .error err => (r, (none, some err), [ev])
  | .ok resp =>
    match resp.image with
    | some img =>
      if img.id = "" ∨ img.size = 0 then
        (r, (none, some (errorsNew
          ("Id or size of image " ++ goQuote image.image ++ " is not set"))), [ev])
      else
        (r, (some resp, none), [ev])
    | none => (r, (some resp, none), [ev])

/-- Go method `ImageStatus`: run `imageStatusV1` inside a scope bounded by the stored
timeout; the deferred `cancel()` releases the scope on every exit path. -/
def ImageStatus (r : remoteImageService) (image : ImageSpec) (verbose : Bool) :
    remoteImageService × (Option ImageStatusResponse × Option GoErr) × List CallEvent :=
  let ctx := getContextWithTimeout r.timeout
  let out := imageStatusV1 r ctx image verbose
  (out.1, out.2.1, (CallEvent.scopeCreated ctx.timeout :: out.2.2) ++ [CallEvent.scopeReleased])

/-- Go function `pullImageV1`: issue the PullImage RPC; on backend error return
`("", err)`; on success, if the returned `ImageRef` is empty, synthesize a
local error and return `("", err)`; otherwise return `(resp.ImageRef, nil)`. -/
def pullImageV1 (r : remoteImageService) (ctx : Ctx) (image : ImageSpec)
    (auth : Option AuthConfig) (podSandboxConfig : Option PodSandboxConfig) :
    remoteImageService × (String × Option GoErr) × List CallEvent :=
  let ev := CallEvent.rpcIssued "PullImage" ctx.timeout
  match r.imageClient.pullImage
      { image := image, auth := auth, sandboxConfig := podSandboxConfig } with
  | .error err => (r, ("", some err), [ev])
  | .ok resp =>
    if resp.imageRef = "" then
      (r, ("", some (errorsNew
        ("imageRef of image " ++ goQuote image.image ++ " is not set"))), [ev])
    else
      (r, (resp.imageRef, none), [ev])

/-- Go method `PullImage`: run `pullImageV1` inside an unbounded-but-cancellable scope
(no timeout applied); the deferred `cancel()` releases the scope on every
exit path. -/
def PullImage (r : remoteImageService) (image : ImageSpec)
    (auth : Option AuthConfig) (podSandboxConfig : Option PodSandboxConfig) :
    remoteImageService × (String × Option GoErr) × List CallEvent :=
  let ctx := getContextWithCancel
  let out := pullImageV1 r ctx image auth podSandboxConfig
  (out.1, out.2.1, (CallEvent.scopeCreated ctx.timeout :: out.2.2) ++ [CallEvent.scopeReleased])

/-- Go method `RemoveImage`: inside a scope bounded by the stored timeout, issue the
RemoveImage RPC; return the backend error on failure and nil on success. -/
def RemoveImage (r : remoteImageService) (image : ImageSpec) :
    remoteImageService × Option GoErr × List CallEvent :=
  let ctx := getContextWithTimeout r.timeout
  let ev := CallEvent.rpcIssued "RemoveImage" ctx.timeout
  match r.imageClient.removeImage { image := image } with
  | .error err =>
    (r, some err, (CallEvent.scopeCreated ctx.timeout :: [ev]) ++ [CallEvent.scopeReleased])
  | .ok _ =>
    (r, none, (CallEvent.scopeCreated ctx.timeout :: [ev]) ++ [CallEvent.scopeReleased])

/-- Go function `imageFsInfoV1`: issue the ImageFsInfo RPC; on error return
`(nil, err)`, on success return `(resp.GetImageFilesystems(), nil)`. -/
def imageFsInfoV1 (r : remoteImageService) (ctx : Ctx) :
    remoteImageService × (Option (List FilesystemUsage) × Option GoErr) × List CallEvent :=
  let ev := CallEvent.rpcIssued "ImageFsInfo" ctx.timeout
  match r.imageClient.imageFsInfo {} with
  | .error err => (r, (none, some err), [ev])
  | .ok resp => (r, (resp.imageFilesystems, none), [ev])

/-- Go method `ImageFsInfo`: run `imageFsInfoV1` inside an unbounded-but-cancellable
scope (no timeout applied, because the query may be slow); the deferred
`cancel()` releases the scope on every exit path. -/
def ImageFsInfo (r : remoteImageService) :
    remoteImageService × (Option (List FilesystemUsage) × Option GoErr) × List CallEvent :=
  let ctx := getContextWithCancel
  let out := imageFsInfoV1 r ctx
  (out.1, out.2.1, (CallEvent.scopeCreated ctx.timeout :: out.2.2) ++ [CallEvent.scopeReleased])

/-- Model of a `fmt.Errorf("...: %w", err)` wrap: the formatted prefix is
prepended to the wrapped error's message; the wrapped error stays reachable
for unwrapping, so the status code is kept (the file never inspects the
code of a wrapped error). -/
def fmtErrorfWrap (prefixMsg : String) (e : GoErr) : GoErr :=
  { msg := prefixMsg ++ e.msg, code := e.code }

/-- Go zero value of the `imageClient` interface field (a nil interface) as
left by the struct literal `&remoteImageService{timeout: connectionTimeout}`;
calling a method on it would panic. `validateServiceConnection` overwrites
it before any call is issued, so these bodies are never invoked. -/
def nilImageServiceClient : ImageServiceClient where
  listImages _ := .error (errorsNew "nil ImageServiceClient")
  imageStatus _ := .error (errorsNew "nil ImageServiceClient")
  pullImage _ := .error (errorsNew "nil ImageServiceClient")
  removeImage _ := .error (errorsNew "nil ImageServiceClient")
  imageFsInfo _ := .error (errorsNew "nil ImageServiceClient")

/-- Go method `validateServiceConnection`: store the image client made from the new
channel in the receiver (`runtimeapi.NewImageServiceClient(conn)` is the
identity in this model, where a channel is represented by the client
speaking over it), then probe `ImageFsInfo` inside a scope bounded by the
stored timeout. A successful probe, and any probe error other than
`Unimplemented`, yield no error; an `Unimplemented` probe error yields an
endpoint-naming error. -/
def validateServiceConnection (r : remoteImageService) (conn : ImageServiceClient)
    (endpoint : String) :
    remoteImageService × Option GoErr × List CallEvent :=
  let ctx := getContextWithTimeout r.timeout
  let r := { r with imageClient := conn }
  let ev := CallEvent.rpcIssued "ImageFsInfo" ctx.timeout
  let trace := (CallEvent.scopeCreated ctx.timeout :: [ev]) ++ [CallEvent.scopeReleased]
  match r.imageClient.imageFsInfo {} with
  | .ok _ => (r, none, trace)
  | .error err =>
    if statusCode err = codeUnimplemented then
      (r, some (fmtErrorfWrap
        ("CRI v1 image API is not implemented for endpoint " ++ goQuote endpoint ++ ": ")
        err), trace)
    else
      (r, none, trace)

/-- Outcomes of the external collaborators consulted by
`NewRemoteImageService`: endpoint resolution (`util.GetAddressAndDialer`,
yielding the resolved address) and the gRPC dial (`grpc.DialContext`,
yielding the channel, represented by the image client speaking over it). -/
structure DialWorld where
  getAddressAndDialer : Except GoErr String
  dialContext : Except GoErr ImageServiceClient

/-- Go function `NewRemoteImageService`: resolve the endpoint, dial the channel (both
failures propagate and no handle is returned), build the handle with the
connection timeout as its stored timeout, run the validation handshake, and
on handshake rejection fail with a wrapped error and no handle; otherwise
return the handle. -/
def NewRemoteImageService (endpoint : String) (connectionTimeout : Int) (w : DialWorld) :
    Option remoteImageService × Option GoErr :=
  match w.getAddressAndDialer with
  | .error err => (none, some err)
  | .ok _addr =>
    match w.dialContext with
    | .error err => (none, some err)
    | .ok conn =>
      let service : remoteImageService :=
        { timeout := connectionTimeout, imageClient := nilImageServiceClient }
      let out := validateServiceConnection service conn endpoint
      match out.2.1 with
      | some err => (none, some (fmtErrorfWrap "validate service connection: " err))
      | none => (some out.1, none)

/-!
Concrete backends and handles used to instantiate the theorems.
-/

/-- Builds a backend stub answering each operation with a fixed outcome. -/
def constClient (ls : Except GoErr ListImagesResponse)
    (st : Except GoErr ImageStatusResponse) (pl : Except GoErr PullImageResponse)
    (rm : Except GoErr RemoveImageResponse) (fs : Except GoErr ImageFsInfoResponse) :
    ImageServiceClient where
  listImages _ := ls
  imageStatus _ := st
  pullImage _ := pl
  removeImage _ := rm
  imageFsInfo _ := fs

/-- Sample caller-side image reference. -/
def sampleSpec : ImageSpec :=
  { image := "docker.io/library/busybox:latest", annotations := [],
    userSpecifiedImage := "", runtimeHandler := "" }

/-- Sample well-formed backend image record. -/
def sampleImage : Image :=
  { id := "sha256:abc", repoTags := ["busybox:latest"], repoDigests := [],
    size := 1234, username := "", pinned := false }

/-- Sample invalid backend image record: identifier set, size zero. -/
def badImage : Image := { sampleImage with size := 0 }

/-- Sample filesystem usage record. -/
def sampleFs : FilesystemUsage :=
  { timestamp := 0, fsId := "/var/lib/images", usedBytes := some 100,
    inodesUsed := some 10 }

/-- Backend on which every operation succeeds. -/
def goodClient : ImageServiceClient :=
  constClient (.ok { images := some [sampleImage] })
    (.ok { image := some sampleImage, info := [] })
    (.ok { imageRef := "sha256:abc" }) (.ok {})
    (.ok { imageFilesystems := some [sampleFs] })

/-- Handle over `goodClient`. -/
def svcOk : remoteImageService := { timeout := 2, imageClient := goodClient }

/-- Handle over a backend whose status response carries an invalid record. -/
def svcBadStatus : remoteImageService :=
  { timeout := 2, imageClient :=
      constClient (.ok { images := some [sampleImage] })
        (.ok { image := some badImage, info := [] })
        (.ok { imageRef := "sha256:abc" }) (.ok {})
        (.ok { imageFilesystems := some [sampleFs] }) }

/-- Handle over a backend whose status response carries a nil record. -/
def svcNilStatus : remoteImageService :=
  { timeout := 2, imageClient :=
      constClient (.ok { images := some [sampleImage] })
        (.ok { image := none, info := [] })
        (.ok { imageRef := "sha256:abc" }) (.ok {})
        (.ok { imageFilesystems := some [sampleFs] }) }

/-- Handle over a backend whose pull response carries an empty reference. -/
def svcEmptyPull : remoteImageService :=
  { timeout := 2, imageClient :=
      constClient (.ok { images := some [sampleImage] })
        (.ok { image := some sampleImage, info := [] })
        (.ok { imageRef := "" }) (.ok {})
        (.ok { imageFilesystems := some [sampleFs] }) }

/-- Sample backend/transport error (gRPC code Unavailable). -/
def errBackend : GoErr := { msg := "backend unavailable", code := 14 }

/-- Handle over a backend on which every operation fails with
`errBackend`. -/
def svcErr : remoteImageService :=
  { timeout := 2, imageClient :=
      constClient (.error errBackend) (.error errBackend) (.error errBackend)
        (.error errBackend) (.error errBackend) }

/-- Sample Unimplemented error, as a backend without the CRI v1 image API
would answer the handshake probe. -/
def unimplErr : GoErr :=
  { msg := "unknown method ImageFsInfo", code := codeUnimplemented }

/-- Channel to a backend answering everything with `unimplErr`. -/
def connUnimpl : ImageServiceClient :=
  constClient (.error unimplErr) (.error unimplErr) (.error unimplErr)
    (.error unimplErr) (.error unimplErr)

/-- Dial outcomes: resolution and dial succeed, reaching `connUnimpl`. -/
def wUnimpl : DialWorld :=
  { getAddressAndDialer := .ok "/run/cri.sock", dialContext := .ok connUnimpl }

/-- Dial outcomes: resolution and dial succeed, reaching `goodClient`. -/
def wGood : DialWorld :=
  { getAddressAndDialer := .ok "/run/cri.sock", dialContext := .ok goodClient }

/-!
Helper lemmas shared by the claim theorems.
-/

/-- The receiver is unchanged by `ListImages`. -/
theorem ListImages_state (r : remoteImageService) (filter : Option ImageFilter) :
    (ListImages r filter).1 = r := by
  unfold ListImages listImagesV1
  cases h : r.imageClient.listImages { filter := filter } <;> simp [h]

/-- The receiver is unchanged by `ImageStatus`. -/
theorem ImageStatus_state (r : remoteImageService) (image : ImageSpec) (verbose : Bool) :
    (ImageStatus r image verbose).1 = r := by
  unfold ImageStatus imageStatusV1
  cases h : r.imageClient.imageStatus { image := image, verbose := verbose } with
  | error e => simp [h]
  | ok resp =>
    cases hi : resp.image with
    | none => simp [h, hi]
    | some img =>
      by_cases hbad : img.id = "" ∨ img.size = 0 <;> simp [h, hi, hbad]

/-- The receiver is unchanged by `PullImage`. -/
theorem PullImage_state (r : remoteImageService) (image : ImageSpec)
    (auth : Option AuthConfig) (cfg : Option PodSandboxConfig) :
    (PullImage r image auth cfg).1 = r := by
  unfold PullImage pullImageV1
  cases h : r.imageClient.pullImage
      { image := image, auth := auth, sandboxConfig := cfg } with
  | error e => simp [h]
  | ok resp => by_cases he : resp.imageRef = "" <;> simp [h, he]

/-- The receiver is unchanged by `RemoveImage`. -/
theorem RemoveImage_state (r : remoteImageService) (image : ImageSpec) :
    (RemoveImage r image).1 = r := by
  unfold RemoveImage
  cases h : r.imageClient.removeImage { image := image } <;> simp [h]

/-- The receiver is unchanged by `ImageFsInfo`. -/
theorem ImageFsInfo_state (r : remoteImageService) :
    (ImageFsInfo r).1 = r := by
  unfold ImageFsInfo imageFsInfoV1
  cases h : r.imageClient.imageFsInfo {} <;> simp [h]

/-- C1: when the backend answers `ImageStatus` without error and with a
non-nil image record whose identifier is empty or whose size is zero, the
operation returns a locally synthesized error (built by `errors.New` from
the requested reference) and does not return the record: the returned
response is nil. -/
theorem C1_imageStatus_rejects_invalid_record
    (r : remoteImageService) (image : ImageSpec) (verbose : Bool)
    (resp : ImageStatusResponse) (img : Image)
    (hok : r.imageClient.imageStatus { image := image, verbose := verbose } = Except.ok resp)
    (himg : resp.image = some img)
    (hbad : img.id = "" ∨ img.size = 0) :
    (ImageStatus r image verbose).2.1 =
      (none, some (errorsNew ("Id or size of image " ++ goQuote image.image ++ " is not set"))) := by
  unfold ImageStatus imageStatusV1
  simp [hok, himg, hbad]

/-- C4: when the backend answers `ImageStatus` without error and with a nil
image record, the operation succeeds, returning the response with no
error. -/
theorem C4_imageStatus_nil_record_ok
    (r : remoteImageService) (image : ImageSpec) (verbose : Bool)
    (resp : ImageStatusResponse)
    (hok : r.imageClient.imageStatus { image := image, verbose := verbose } = Except.ok resp)
    (hnil : resp.image = none) :
    (ImageStatus r image verbose).2.1 = (some resp, none) := by
  unfold ImageStatus imageStatusV1
  simp [hok, hnil]

/-- C3: when the backend answers `PullImage` without error, an empty
returned reference makes the operation fail with a locally synthesized
error whose message contains the requested image reference, while a
non-empty returned reference is returned exactly, with no error. -/
theorem C3_pullImage_ref_contract
    (r : remoteImageService) (image : ImageSpec)
    (auth : Option AuthConfig) (cfg : Option PodSandboxConfig)
    (resp : PullImageResponse)
    (hok : r.imageClient.pullImage
      { image := image, auth := auth, sandboxConfig := cfg } = Except.ok resp) :
    (resp.imageRef = "" →
      ∃ e, (PullImage r image auth cfg).2.1 = ("", some e) ∧
        e = errorsNew ("imageRef of image " ++ goQuote image.image ++ " is not set") ∧
        ∃ pre post, e.msg = pre ++ image.image ++ post) ∧
    (resp.imageRef ≠ "" →
      (PullImage r image auth cfg).2.1 = (resp.imageRef, none)) := by
  constructor
  · intro he
    refine ⟨errorsNew ("imageRef of image " ++ goQuote image.image ++ " is not set"),
      ?_, rfl, "imageRef of image \"", "\" is not set", ?_⟩
    · unfold PullImage pullImageV1
      simp [hok, he]
    · show "imageRef of image " ++ ("\"" ++ image.image ++ "\"") ++ " is not set" = _
      simp [String.append_assoc]
      rw [← String.append_assoc]
      rfl
  · intro he
    unfold PullImage pullImageV1
    simp [hok, he]

/-- C5: `RemoveImage` returns no error exactly when the backend call
returns no error, and a backend error is returned unchanged. -/
theorem C5_removeImage_error_iff (r : remoteImageService) (image : ImageSpec) :
    ((RemoveImage r image).2.1 = none ↔
      ∃ u, r.imageClient.removeImage { image := image } = Except.ok u) ∧
    (∀ e, r.imageClient.removeImage { image := image } = Except.error e →
      (RemoveImage r image).2.1 = some e) := by
  constructor
  · cases h : r.imageClient.removeImage { image := image } with
    | error e =>
      unfold RemoveImage
      simp [h]
    | ok u =>
      unfold RemoveImage
      simp [h]
      exact ⟨u, trivial⟩
  · intro e he
    unfold RemoveImage
    simp [he]

/-- C6: for every filter, nil included, a successful backend `ListImages`
call makes the operation return exactly the backend's image collection,
unmodified and in order, with no error. -/
theorem C6_listImages_passthrough
    (r : remoteImageService) (filter : Option ImageFilter)
    (resp : ListImagesResponse)
    (hok : r.imageClient.listImages { filter := filter } = Except.ok resp) :
    (ListImages r filter).2.1 = (resp.images, none) := by
  unfold ListImages listImagesV1
  simp [hok]

/-- C7: list, status and remove run their single RPC inside a scope bounded
by the handle's stored timeout, pull and filesystem-info inside an
unbounded-but-cancellable scope with no timeout, and every operation's
trace releases its scope on every exit path (over all backend outcomes,
the trace always ends with the release event). -/
theorem C7_scoping_policy
    (r : remoteImageService) (filter : Option ImageFilter) (image : ImageSpec)
    (verbose : Bool) (auth : Option AuthConfig) (cfg : Option PodSandboxConfig) :
    (ListImages r filter).2.2 =
      [CallEvent.scopeCreated (some r.timeout),
       CallEvent.rpcIssued "ListImages" (some r.timeout), CallEvent.scopeReleased] ∧
    (ImageStatus r image verbose).2.2 =
      [CallEvent.scopeCreated (some r.timeout),
       CallEvent.rpcIssued "ImageStatus" (some r.timeout), CallEvent.scopeReleased] ∧
    (RemoveImage r image).2.2 =
      [CallEvent.scopeCreated (some r.timeout),
       CallEvent.rpcIssued "RemoveImage" (some r.timeout), CallEvent.scopeReleased] ∧
    (PullImage r image auth cfg).2.2 =
      [CallEvent.scopeCreated none,
       CallEvent.rpcIssued "PullImage" none, CallEvent.scopeReleased] ∧
    (ImageFsInfo r).2.2 =
      [CallEvent.scopeCreated none,
       CallEvent.rpcIssued "ImageFsInfo" none, CallEvent.scopeReleased] := by
  refine ⟨?_, ?_, ?_, ?_, ?_⟩
  · unfold ListImages listImagesV1
    cases h : r.imageClient.listImages { filter := filter } <;>
      simp [h, getContextWithTimeout]
  · unfold ImageStatus imageStatusV1
    cases h : r.imageClient.imageStatus { image := image, verbose := verbose } with
    | error e => simp [h, getContextWithTimeout]
    | ok resp =>
      cases hi : resp.image with
      | none => simp [h, hi, getContextWithTimeout]
      | some img =>
        by_cases hbad : img.id = "" ∨ img.size = 0 <;>
          simp [h, hi, hbad, getContextWithTimeout]
  · unfold RemoveImage
    cases h : r.imageClient.removeImage { image := image } <;>
      simp [h, getContextWithTimeout]
  · unfold PullImage pullImageV1
    cases h : r.imageClient.pullImage
        { image := image, auth := auth, sandboxConfig := cfg } with
    | error e => simp [h, getContextWithCancel]
    | ok resp =>
      by_cases he : resp.imageRef = "" <;> simp [h, he, getContextWithCancel]
  · unfold ImageFsInfo imageFsInfoV1
    cases h : r.imageClient.imageFsInfo {} <;> simp [h, getContextWithCancel]

/-- C8: a handle produced by successful construction stores the
caller-supplied connection timeout as its default per-call timeout, and no
exposed operation changes the handle's fields: each operation returns the
receiver it was given. -/
theorem C8_handle_timeout_and_immutable
    (endpoint : String) (t : Int) (w : DialWorld) (svc : remoteImageService)
    (hok : (NewRemoteImageService endpoint t w).1 = some svc) :
    svc.timeout = t ∧
    ∀ (filter : Option ImageFilter) (image : ImageSpec) (verbose : Bool)
      (auth : Option AuthConfig) (cfg : Option PodSandboxConfig),
      (ListImages svc filter).1 = svc ∧
      (ImageStatus svc image verbose).1 = svc ∧
      (PullImage svc image auth cfg).1 = svc ∧
      (RemoveImage svc image).1 = svc ∧
      (ImageFsInfo svc).1 = svc := by
  refine ⟨?_, ?_⟩
  · unfold NewRemoteImageService at hok
    cases ha : w.getAddressAndDialer with
    | error e => rw [ha] at hok; exact absurd hok (by simp)
    | ok addr =>
      cases hd : w.dialContext with
      | error e => rw [ha, hd] at hok; exact absurd hok (by simp)
      | ok conn =>
        rw [ha, hd] at hok
        unfold validateServiceConnection at hok
        cases hp : conn.imageFsInfo {} with
        | ok resp =>
          simp [hp] at hok
          rw [← hok]
        | error e =>
          by_cases hu : statusCode e = codeUnimplemented
          · simp [hp, hu] at hok
          · simp [hp, hu] at hok
            rw [← hok]
  · intro filter image verbose auth cfg
    exact ⟨ListImages_state svc filter, ImageStatus_state svc image verbose,
      PullImage_state svc image auth cfg, RemoveImage_state svc image,
      ImageFsInfo_state svc⟩

/-- C9: every operation issues exactly one RPC per invocation, whatever the
backend does, and a backend error is returned to the caller as the same
error value, unwrapped and unreplaced. -/
theorem C9_single_rpc_verbatim_errors
    (r : remoteImageService) (filter : Option ImageFilter) (image : ImageSpec)
    (verbose : Bool) (auth : Option AuthConfig) (cfg : Option PodSandboxConfig) :
    (rpcCount (ListImages r filter).2.2 = 1 ∧
     rpcCount (ImageStatus r image verbose).2.2 = 1 ∧
     rpcCount (PullImage r image auth cfg).2.2 = 1 ∧
     rpcCount (RemoveImage r image).2.2 = 1 ∧
     rpcCount (ImageFsInfo r).2.2 = 1) ∧
    (∀ e, r.imageClient.listImages { filter := filter } = Except.error e →
      (ListImages r filter).2.1 = (none, some e)) ∧
    (∀ e, r.imageClient.imageStatus { image := image, verbose := verbose } = Except.error e →
      (ImageStatus r image verbose).2.1 = (none, some e)) ∧
    (∀ e, r.imageClient.pullImage { image := image, auth := auth, sandboxConfig := cfg } =
        Except.error e →
      (PullImage r image auth cfg).2.1 = ("", some e)) ∧
    (∀ e, r.imageClient.removeImage { image := image } = Except.error e →
      (RemoveImage r image).2.1 = some e) ∧
    (∀ e, r.imageClient.imageFsInfo {} = Except.error e →
      (ImageFsInfo r).2.1 = (none, some e)) := by
  refine ⟨⟨?_, ?_, ?_, ?_, ?_⟩, ?_, ?_, ?_, ?_, ?_⟩
  · unfold ListImages listImagesV1
    cases h : r.imageClient.listImages { filter := filter } <;> simp [h, rpcCount]
  · unfold ImageStatus imageStatusV1
    cases h : r.imageClient.imageStatus { image := image, verbose := verbose } with
    | error e => simp [h, rpcCount]
    | ok resp =>
      cases hi : resp.image with
      | none => simp [h, hi, rpcCount]
      | some img =>
        by_cases hbad : img.id = "" ∨ img.size = 0 <;> simp [h, hi, hbad, rpcCount]
  · unfold PullImage pullImageV1
    cases h : r.imageClient.pullImage
        { image := image, auth := auth, sandboxConfig := cfg } with
    | error e => simp [h, rpcCount]
    | ok resp => by_cases he : resp.imageRef = "" <;> simp [h, he, rpcCount]
  · unfold RemoveImage
    cases h : r.imageClient.removeImage { image := image } <;> simp [h, rpcCount]
  · unfold ImageFsInfo imageFsInfoV1
    cases h : r.imageClient.imageFsInfo {} <;> simp [h, rpcCount]
  · intro e he
    unfold ListImages listImagesV1
    simp [he]
  · intro e he
    unfold ImageStatus imageStatusV1
    simp [he]
  · intro e he
    unfold PullImage pullImageV1
    simp [he]
  · intro e he
    unfold RemoveImage
    simp [he]
  · intro e he
    unfold ImageFsInfo imageFsInfoV1
    simp [he]

/-- C10: whenever an operation reports an error — propagated or locally
synthesized — the accompanying result is the zero value: a nil slice for
`ListImages` and `ImageFsInfo`, a nil response for `ImageStatus`, the
empty string for `PullImage`. -/
theorem C10_error_implies_zero_value
    (r : remoteImageService) (filter : Option ImageFilter) (image : ImageSpec)
    (verbose : Bool) (auth : Option AuthConfig) (cfg : Option PodSandboxConfig) :
    (∀ e, (ListImages r filter).2.1.2 = some e → (ListImages r filter).2.1.1 = none) ∧
    (∀ e, (ImageStatus r image verbose).2.1.2 = some e →
      (ImageStatus r image verbose).2.1.1 = none) ∧
    (∀ e, (PullImage r image auth cfg).2.1.2 = some e →
      (PullImage r image auth cfg).2.1.1 = "") ∧
    (∀ e, (ImageFsInfo r).2.1.2 = some e → (ImageFsInfo r).2.1.1 = none) := by
  refine ⟨?_, ?_, ?_, ?_⟩
  · intro e
    unfold ListImages listImagesV1
    cases h : r.imageClient.listImages { filter := filter } <;> simp [h]
  · intro e
    unfold ImageStatus imageStatusV1
    cases h : r.imageClient.imageStatus { image := image, verbose := verbose } with
    | error e₂ => simp [h]
    | ok resp =>
      cases hi : resp.image with
      | none => simp [h, hi]
      | some img =>
        by_cases hbad : img.id = "" ∨ img.size = 0 <;> simp [h, hi, hbad]
  · intro e
    unfold PullImage pullImageV1
    cases h : r.imageClient.pullImage
        { image := image, auth := auth, sandboxConfig := cfg } with
    | error e₂ => simp [h]
    | ok resp => by_cases he : resp.imageRef = "" <;> simp [h, he]
  · intro e
    unfold ImageFsInfo imageFsInfoV1
    cases h : r.imageClient.imageFsInfo {} <;> simp [h]

/-- C2: when endpoint resolution and dialing succeed, a handshake probe
failing with the Unimplemented gRPC code makes construction fail with an
error whose message names the endpoint, returning no handle, while a
handshake probe failing with any other code still yields a successfully
constructed handle. -/
theorem C2_handshake_asymmetry
    (endpoint : String) (t : Int) (w : DialWorld) (addr : String)
    (conn : ImageServiceClient) (err : GoErr)
    (haddr : w.getAddressAndDialer = Except.ok addr)
    (hdial : w.dialContext = Except.ok conn)
    (hprobe : conn.imageFsInfo {} = Except.error err) :
    (statusCode err = codeUnimplemented →
      (NewRemoteImageService endpoint t w).1 = none ∧
      ∃ e pre post, (NewRemoteImageService endpoint t w).2 = some e ∧
        e.msg = pre ++ endpoint ++ post) ∧
    (statusCode err ≠ codeUnimplemented →
      ∃ svc, NewRemoteImageService endpoint t w = (some svc, none)) := by
  constructor
  · intro hu
    unfold NewRemoteImageService validateServiceConnection
    rw [haddr, hdial]
    simp [hprobe, hu, fmtErrorfWrap, goQuote]
    refine ⟨"validate service connection: CRI v1 image API is not implemented for endpoint \"",
      "\": " ++ err.msg, ?_⟩
    simp [String.append_assoc]
    rw [← String.append_assoc]
    rfl
  · intro hu
    unfold NewRemoteImageService validateServiceConnection
    rw [haddr, hdial]
    simp [hprobe, hu]

/-!
Witnesses: each applies its claim theorem at a concrete backend.
-/

/-- Witness for C1 at a backend returning a zero-size record. -/
theorem C1_witness :
    (ImageStatus svcBadStatus sampleSpec false).2.1 =
      (none, some (errorsNew
        ("Id or size of image " ++ goQuote sampleSpec.image ++ " is not set"))) :=
  C1_imageStatus_rejects_invalid_record svcBadStatus sampleSpec false
    { image := some badImage, info := [] } badImage rfl rfl (Or.inr rfl)

/-- Witness for C2 at a backend answering the probe with Unimplemented. -/
theorem C2_witness :
    (NewRemoteImageService "unix:///run/cri.sock" 2 wUnimpl).1 = none ∧
    ∃ e pre post, (NewRemoteImageService "unix:///run/cri.sock" 2 wUnimpl).2 = some e ∧
      e.msg = pre ++ "unix:///run/cri.sock" ++ post :=
  (C2_handshake_asymmetry "unix:///run/cri.sock" 2 wUnimpl "/run/cri.sock"
    connUnimpl unimplErr rfl rfl rfl).1 rfl

/-- Witness for C3 at a backend returning an empty pull reference. -/
theorem C3_witness :
    ∃ e, (PullImage svcEmptyPull sampleSpec none none).2.1 = ("", some e) ∧
      e = errorsNew ("imageRef of image " ++ goQuote sampleSpec.image ++ " is not set") ∧
      ∃ pre post, e.msg = pre ++ sampleSpec.image ++ post :=
  (C3_pullImage_ref_contract svcEmptyPull sampleSpec none none
    { imageRef := "" } rfl).1 rfl

/-- Witness for C4 at a backend returning a nil record. -/
theorem C4_witness :
    (ImageStatus svcNilStatus sampleSpec false).2.1 =
      (some { image := none, info := [] }, none) :=
  C4_imageStatus_nil_record_ok svcNilStatus sampleSpec false
    { image := none, info := [] } rfl rfl

/-- Witness for C5 at a backend accepting the removal. -/
theorem C5_witness : (RemoveImage svcOk sampleSpec).2.1 = none :=
  ((C5_removeImage_error_iff svcOk sampleSpec).1).mpr ⟨{}, rfl⟩

/-- Witness for C6 at a backend listing one image. -/
theorem C6_witness :
    (ListImages svcOk none).2.1 = (some [sampleImage], none) :=
  C6_listImages_passthrough svcOk none { images := some [sampleImage] } rfl

/-- Witness for C7 at a healthy backend. -/
theorem C7_witness :
    (ListImages svcOk none).2.2 =
      [CallEvent.scopeCreated (some 2), CallEvent.rpcIssued "ListImages" (some 2),
       CallEvent.scopeReleased] ∧
    (PullImage svcOk sampleSpec none none).2.2 =
      [CallEvent.scopeCreated none, CallEvent.rpcIssued "PullImage" none,
       CallEvent.scopeReleased] := by
  have h := C7_scoping_policy svcOk none sampleSpec false none none
  exact ⟨h.1, h.2.2.2.1⟩

/-- Witness for C8 at a successfully constructed handle. -/
theorem C8_witness :
    svcOk.timeout = 2 ∧
    (ListImages svcOk none).1 = svcOk ∧
    (ImageStatus svcOk sampleSpec false).1 = svcOk ∧
    (PullImage svcOk sampleSpec none none).1 = svcOk ∧
    (RemoveImage svcOk sampleSpec).1 = svcOk ∧
    (ImageFsInfo svcOk).1 = svcOk := by
  have h := C8_handle_timeout_and_immutable "unix:///run/cri.sock" 2 wGood svcOk rfl
  have h₂ := h.2 none sampleSpec false none none
  exact ⟨h.1, h₂.1, h₂.2.1, h₂.2.2.1, h₂.2.2.2.1, h₂.2.2.2.2⟩

/-- Witness for C9 at a backend failing every call. -/
theorem C9_witness :
    rpcCount (ListImages svcErr none).2.2 = 1 ∧
    (ListImages svcErr none).2.1 = (none, some errBackend) := by
  have h := C9_single_rpc_verbatim_errors svcErr none sampleSpec false none none
  exact ⟨h.1.1, h.2.1 errBackend rfl⟩

/-- Witness for C10 at a backend failing every call. -/
theorem C10_witness :
    (PullImage svcErr sampleSpec none none).2.1.1 = "" ∧
    (ListImages svcErr none).2.1.1 = none := by
  have h := C10_error_implies_zero_value svcErr none sampleSpec false none none
  exact ⟨h.2.2.1 errBackend rfl, h.1 errBackend rfl⟩

end CriRemote
